import Mathlib

/-!
Verification of the `ai_ou_nao` backend core: the probability-extraction
algorithm, the classification banding, the analyzer hierarchy's call
structure, service-level input validation and configuration validation.

The Python sources (`models.py`, `analyzers.py`, `services.py`,
`exceptions.py`) are embedded shallowly below.  Machine integers are
modelled as `Int`/`Nat`, the float `temperature` as `ℚ` (the claims only
touch values exactly representable in binary floating point, where `float`
comparison agrees with rational comparison), Python exceptions as `Except`
values, and the outbound generative-model endpoint as an injected oracle
`NetOracle` answering the k-th outbound call made with a given prompt.
`\d` and `int()` digits are modelled as ASCII `0`-`9` (the Unicode digit
tables of CPython are out of scope; every input in the spec is ASCII).
-/

namespace AiOuNao

/-! ### Python string primitives used by `BaseAnalyzer._extract_probability` -/

/-- The whitespace characters removed by Python's `str.strip()` (ASCII part). -/
def isPySpace (c : Char) : Bool :=
  c = ' ' || c = '\t' || c = '\n' || c = '\r' || c = '\x0b' || c = '\x0c'

/-- Drop leading `isPySpace` characters. -/
def dropPySpaces : List Char → List Char
  | [] => []
  | c :: cs => if isPySpace c then dropPySpaces cs else c :: cs

/-- Python `str.strip()`: drop whitespace from both ends. -/
def pyStripChars (l : List Char) : List Char :=
  (dropPySpaces (dropPySpaces l).reverse).reverse

/-- `str.strip()` on `String`. -/
def pyStripString (s : String) : String :=
  ⟨pyStripChars s.data⟩

/-- Numeric value of a digit run (most significant digit first). -/
def digitsVal (l : List Char) : Nat :=
  l.foldl (fun a c => a * 10 + (c.toNat - 48)) 0

/-- Parse a nonempty all-digit character list; `none` otherwise. -/
def parseNatDigits (l : List Char) : Option Nat :=
  if l ≠ [] ∧ l.all (fun c => c.isDigit) then some (digitsVal l) else none

/-- Python `int(str)` applied to already-stripped text: an optional single
sign followed by a nonempty digit run.  (`_` digit grouping is not
modelled.)  `none` models the `ValueError`. -/
def pyIntOfChars : List Char → Option Int
  | [] => none
  | c :: rest =>
    if c = '-' then (parseNatDigits rest).map (fun n => -(n : Int))
    else if c = '+' then (parseNatDigits rest).map (fun n => (n : Int))
    else (parseNatDigits (c :: rest)).map (fun n => (n : Int))

/-- First maximal run of decimal digits, as returned by
`re.findall(r"\d+", text)[0]`; `none` when the text has no digit. -/
def firstDigitRun : List Char → Option (List Char)
  | [] => none
  | c :: cs =>
    if c.isDigit then some (List.takeWhile (fun d => d.isDigit) (c :: cs))
    else firstDigitRun cs

/-- `BaseAnalyzer._extract_probability` (analyzers.py:45-60): try
`int(response_text.strip())`; on `ValueError` take the first digit run of
the raw text; default 50; clamp `max(0, min(100, ·))` in both parsed
branches. -/
def extract_probability (s : String) : Int :=
  match pyIntOfChars (pyStripChars s.data) with
  | some probability => max 0 (min 100 probability)
  | none =>
    match firstDigitRun s.data with
    | some run => max 0 (min 100 ((digitsVal run : Int)))
    | none => 50

/-! ### models.py -/

/-- `AnalysisResult.__validate_probability`: clamp to `[0, 100]`. -/
def validate_probability (probability : Int) : Int :=
  max 0 (min 100 probability)

/-- `AnalysisResult.__determine_classification` (models.py:77-88). -/
def determine_classification (probability : Int) : String :=
  if 80 ≤ probability then "Muito provável IA"
  else if 60 ≤ probability then "Provavelmente IA"
  else if 40 ≤ probability then "Incerto"
  else if 20 ≤ probability then "Provavelmente real"
  else "Muito provável real"

/-- The state of a constructed `AnalysisResult` object. -/
structure AnalysisResult where
  probability : Int
  analysis_text : String
  classification : String
deriving DecidableEq

/-- `AnalysisResult.__init__`: clamp the probability, then derive the
classification from the clamped value. -/
def mkAnalysisResult (probability : Int) (analysis_text : String) : AnalysisResult :=
  { probability := validate_probability probability
    analysis_text := analysis_text
    classification := determine_classification (validate_probability probability) }

/-- `AnalysisResult.is_likely_ai` (models.py:105-108). -/
def is_likely_ai (r : AnalysisResult) : Bool :=
  decide (60 ≤ r.probability)

/-- `AnalysisResult.confidence_level` (models.py:110-118). -/
def confidence_level (r : AnalysisResult) : String :=
  if 80 ≤ r.probability ∨ r.probability ≤ 20 then "Alta"
  else if 60 ≤ r.probability ∨ r.probability ≤ 40 then "Média"
  else "Baixa"

/-- `AIModelConfig` (models.py:138-147), a dataclass. -/
structure AIModelConfig where
  model_name : String
  api_key : String
  temperature : ℚ
  max_tokens : Option Nat
deriving DecidableEq

/-- The exceptions of exceptions.py, by constructor; the `String` argument
is the human-readable message. -/
inductive DetectionError where
  | invalidImage (msg : String)
  | noImageProvided (msg : String)
  | apiKeyMissing (msg : String)
  | analysisFailed (msg : String)
  | modelNotAvailable (model_name : String)
  | valueError (msg : String)
deriving DecidableEq

/-- `AIDetectionException.error_code` as assigned by each subclass's
constructor (exceptions.py); `valueError` models Python's builtin
`ValueError`, which carries no detection error code. -/
def error_code : DetectionError → String
  | .invalidImage _ => "INVALID_IMAGE"
  | .noImageProvided _ => "NO_IMAGE_PROVIDED"
  | .apiKeyMissing _ => "API_KEY_MISSING"
  | .analysisFailed _ => "ANALYSIS_FAILED"
  | .modelNotAvailable _ => "MODEL_NOT_AVAILABLE"
  | .valueError _ => "VALUE_ERROR"

/-- `AIModelConfig.__post_init__` (models.py:149-156): empty `api_key`
raises `APIKeyMissingException`; `temperature < 0 or temperature > 1`
raises `ValueError`. -/
def mkAIModelConfig (model_name api_key : String) (temperature : ℚ)
    (max_tokens : Option Nat) : Except DetectionError AIModelConfig :=
  if api_key = "" then
    .error (.apiKeyMissing "Chave da API do Gemini não configurada")
  else if temperature < 0 ∨ 1 < temperature then
    .error (.valueError "Temperature deve estar entre 0 e 1")
  else
    .ok { model_name := model_name, api_key := api_key,
          temperature := temperature, max_tokens := max_tokens }

/-! ### analyzers.py -/

/-- The state of an `ImageData` object: decoded image dimensions and
format (from PIL) plus the upload's filename.  The pixel data itself is
opaque to the core logic and not modelled. -/
structure ImageData where
  width : Nat
  height : Nat
  format : Option String
  filename : String
deriving DecidableEq

/-- The injected hosted generative-AI endpoint: `respond k prompt` is the
reply to the k-th outbound `generate_content` call of one `analyze`
invocation, sent with the given prompt text (the image accompanies every
call and is not part of the oracle's input).  `.error ()` models a raised
network/API exception. -/
structure NetOracle where
  respond : Nat → String → Except Unit String

/-- `GeminiAIDetector._generate_prompt` (analyzers.py:81-98). -/
def standard_prompt : String :=
  "Analise cuidadosamente esta imagem e determine a probabilidade de ela ter sido gerada por uma inteligência artificial (especialmente modelos de geração de imagem como Imagen, DALL-E, Midjourney, Stable Diffusion, etc.).\n\nConsidere os seguintes aspectos:\n1. Artefatos visuais típicos de IA (dedos extras, texto distorcido, inconsistências físicas)\n2. Padrões de textura artificiais ou muito perfeitos\n3. Iluminação e sombras inconsistentes\n4. Elementos que desafiam a física ou anatomia\n5. Qualidade e estilo típicos de imagens geradas por IA\n6. Presença de \"AI watermarks\" ou padrões específicos\n\nResponda APENAS com um número entre 0 e 100, onde:\n- 0 significa certeza de que é uma foto real\n- 100 significa certeza de que foi gerada por IA\n- Valores intermediários representam o nível de confiança\n\nForneça APENAS o número, sem explicações adicionais."

/-- `FastAIDetector._generate_prompt` (analyzers.py:141-146). -/
def fast_prompt : String :=
  "Analise esta imagem rapidamente. É uma imagem gerada por IA ou uma foto real?\nResponda APENAS com um número de 0 (certeza de real) a 100 (certeza de IA)."

/-- `DetailedAIDetector._generate_prompt` (analyzers.py:166-179). -/
def detailed_prompt : String :=
  "Realize uma análise DETALHADA e PROFUNDA desta imagem para determinar se foi gerada por IA.\n\nAnalise CUIDADOSAMENTE:\n1. Anatomia e proporções (especialmente mãos, dedos, rostos)\n2. Física e iluminação (sombras, reflexos, perspectiva)\n3. Texturas e padrões (repetições, artefatos, distorções)\n4. Texto e caracteres (legibilidade, coerência)\n5. Coerência global da cena\n6. Detalhes finos e bordas\n7. Metadados visuais e marcas d\x27água\n\nSeja CRÍTICO e PRECISO. Responda com um número de 0 a 100."

/-- The prompt of the second (explanation) call,
`GeminiAIDetector._generate_detailed_analysis` (analyzers.py:125). -/
def analysis_prompt (probability : Int) : String :=
  "Com base na probabilidade de " ++ toString probability ++
    "% de esta imagem ter sido gerada por IA, forneça uma breve análise (2-3 frases) explicando os principais indicadores que levaram a essa conclusão."

/-- The templated fallback string substituted when the explanation call
fails (analyzers.py:131). -/
def fallback_analysis (probability : Int) : String :=
  "Análise indica " ++ toString probability ++
    "% de probabilidade de geração por IA."

/-- `GeminiAIDetector._generate_detailed_analysis` (analyzers.py:122-131):
one outbound call (the k-th of the invocation) whose failure is absorbed
into the fallback template.  Returns the analysis text and the number of
outbound calls made (always 1). -/
def gemini_generate_analysis (net : NetOracle) (k : Nat) (probability : Int) :
    String × Nat :=
  match net.respond k (analysis_prompt probability) with
  | .ok t => (pyStripString t, 1)
  | .error _ => (fallback_analysis probability, 1)

/-- `GeminiAIDetector.analyze` (analyzers.py:100-120), the shared
template-method flow, parameterized by the variant's probability prompt
and explanation step (polymorphism): call 0 with the probability prompt
(failure becomes `AnalysisFailedException`), extract the probability,
produce the analysis text, build the `AnalysisResult`.  Returns the
outcome and the number of outbound calls made. -/
def gemini_analyze (promptText : String)
    (genAnalysis : NetOracle → Nat → Int → String × Nat)
    (img : ImageData) (net : NetOracle) :
    Except DetectionError AnalysisResult × Nat :=
  match net.respond 0 promptText with
  | .error _ => (.error (.analysisFailed "Falha ao analisar imagem com Gemini AI"), 1)
  | .ok text =>
    let probability := extract_probability text
    let a := genAnalysis net 1 probability
    (.ok (mkAnalysisResult probability a.1), 1 + a.2)

/-- `FastAIDetector._generate_detailed_analysis` (analyzers.py:148-157):
purely templated on the probability, no outbound call. -/
def fast_generate_analysis (net : NetOracle) (k : Nat) (probability : Int) :
    String × Nat :=
  (if 70 ≤ probability then
    "Análise rápida detectou " ++ toString probability ++
      "% de probabilidade de ser IA. Características típicas de geração artificial identificadas."
  else if 30 ≤ probability then
    "Análise inconclusiva com " ++ toString probability ++
      "% de probabilidade. Características mistas detectadas."
  else
    "Análise rápida indica " ++ toString probability ++
      "% de probabilidade de IA. Características predominantemente naturais.", 0)

/-- `GeminiAIDetector.analyze` as dispatched on the standard detector. -/
def standard_analyze : ImageData → NetOracle →
    Except DetectionError AnalysisResult × Nat :=
  gemini_analyze standard_prompt gemini_generate_analysis

/-- `FastAIDetector`'s analysis: the inherited `GeminiAIDetector.analyze`
with the overridden prompt and explanation step. -/
def fast_analyze : ImageData → NetOracle →
    Except DetectionError AnalysisResult × Nat :=
  gemini_analyze fast_prompt fast_generate_analysis

/-- `DetailedAIDetector.analyze` (analyzers.py:181-190): minimum-size
precondition, then `super().analyze` (the shared flow with the detailed
prompt). -/
def detailed_analyze (img : ImageData) (net : NetOracle) :
    Except DetectionError AnalysisResult × Nat :=
  if img.width < 100 ∨ img.height < 100 then
    (.error (.analysisFailed
      "Imagem muito pequena para análise detalhada. Mínimo 100x100 pixels."), 0)
  else
    gemini_analyze detailed_prompt gemini_generate_analysis img net

/-! ### services.py -/

/-- The three analyzer classes `_select_analyzer` can instantiate. -/
inductive AnalyzerKind where
  | standard
  | fast
  | detailed
deriving DecidableEq

/-- `AIDetectionService._select_analyzer` (services.py:87-97). -/
def select_analyzer (analysis_type : String) : AnalyzerKind :=
  if analysis_type = "fast" then .fast
  else if analysis_type = "detailed" then .detailed
  else .standard

/-- Dispatch an `AnalyzerKind`'s `analyze`. -/
def run_analyzer : AnalyzerKind → ImageData → NetOracle →
    Except DetectionError AnalysisResult × Nat
  | .standard => standard_analyze
  | .fast => fast_analyze
  | .detailed => detailed_analyze

/-- An uploaded file as the service sees it: a filename and raw bytes. -/
structure UploadFile where
  filename : String
  content : List Nat
deriving DecidableEq

/-- What PIL's `Image.open` yields: dimensions and format.  The decoder
itself is an external collaborator and is injected; `none` models the
`IOError`/`OSError` raised on undecodable bytes. -/
structure PILImage where
  width : Nat
  height : Nat
  format : Option String
deriving DecidableEq

/-- `AIDetectionService._create_image_data` (services.py:62-85): empty
bytes raise `InvalidImageException("Arquivo de imagem vazio")`; a decoder
failure is caught and re-raised as `InvalidImageException` (the Python
message appends the underlying `IOError` text, which is not modelled). -/
def create_image_data (decode : List Nat → Option PILImage)
    (upload : UploadFile) : Except DetectionError ImageData :=
  if upload.content = [] then
    .error (.invalidImage "Arquivo de imagem vazio")
  else
    match decode upload.content with
    | none => .error (.invalidImage "Não foi possível abrir a imagem")
    | some im =>
      .ok { width := im.width, height := im.height,
            format := im.format, filename := upload.filename }

/-- `AIDetectionService.analyze_image` (services.py:99-132): absent upload
or empty filename raise `NoImageProvidedException`; then
`_create_image_data`, `_select_analyzer`, and the chosen analyzer's
`analyze`.  Returns the outcome and the number of outbound calls made. -/
def analyze_image (decode : List Nat → Option PILImage)
    (image_file : Option UploadFile) (analysis_type : String)
    (net : NetOracle) : Except DetectionError AnalysisResult × Nat :=
  match image_file with
  | none => (.error (.noImageProvided "Nenhuma imagem foi enviada"), 0)
  | some up =>
    if up.filename = "" then
      (.error (.noImageProvided "Nenhuma imagem selecionada"), 0)
    else
      match create_image_data decode up with
      | .error e => (.error e, 0)
      | .ok img => run_analyzer (select_analyzer analysis_type) img net

/-! ### Helper lemmas -/

theorem clamp_bounds (n : Int) :
    0 ≤ max 0 (min 100 n) ∧ max 0 (min 100 n) ≤ 100 :=
  ⟨le_max_left 0 _, max_le (by norm_num) (min_le_left 100 n)⟩

theorem mem_of_mem_dropPySpaces {c : Char} (l : List Char)
    (h : c ∈ dropPySpaces l) : c ∈ l := by
  induction l with
  | nil => exact h
  | cons a t ih =>
    by_cases ha : isPySpace a
    · simp only [dropPySpaces, if_pos ha] at h
      exact List.mem_cons_of_mem a (ih h)
    · simpa only [dropPySpaces, if_neg ha] using h

theorem mem_of_mem_pyStripChars {c : Char} (l : List Char)
    (h : c ∈ pyStripChars l) : c ∈ l := by
  unfold pyStripChars at h
  rw [List.mem_reverse] at h
  have h1 := mem_of_mem_dropPySpaces _ h
  rw [List.mem_reverse] at h1
  exact mem_of_mem_dropPySpaces _ h1

theorem parseNatDigits_eq_none {l : List Char}
    (h : ∀ c ∈ l, c.isDigit = false) : parseNatDigits l = none := by
  unfold parseNatDigits
  rw [if_neg]
  rintro ⟨hne, hall⟩
  cases l with
  | nil => exact hne rfl
  | cons a t =>
    rw [List.all_cons] at hall
    have hd := h a (List.mem_cons_self a t)
    rw [hd] at hall
    simp at hall

theorem pyIntOfChars_eq_none {l : List Char}
    (h : ∀ c ∈ l, c.isDigit = false) : pyIntOfChars l = none := by
  cases l with
  | nil => rfl
  | cons a t =>
    have ht : ∀ c ∈ t, c.isDigit = false :=
      fun c hc => h c (List.mem_cons_of_mem a hc)
    show (if a = '-' then (parseNatDigits t).map (fun n => -(n : Int))
      else if a = '+' then (parseNatDigits t).map (fun n => (n : Int))
      else (parseNatDigits (a :: t)).map (fun n => (n : Int))) = none
    by_cases ha : a = '-'
    · rw [if_pos ha, parseNatDigits_eq_none ht]
      rfl
    · rw [if_neg ha]
      by_cases hb : a = '+'
      · rw [if_pos hb, parseNatDigits_eq_none ht]
        rfl
      · rw [if_neg hb, parseNatDigits_eq_none h]
        rfl

theorem firstDigitRun_eq_none {l : List Char}
    (h : ∀ c ∈ l, c.isDigit = false) : firstDigitRun l = none := by
  induction l with
  | nil => rfl
  | cons a t ih =>
    unfold firstDigitRun
    rw [if_neg]
    · exact ih (fun c hc => h c (List.mem_cons_of_mem a hc))
    · simp [h a (List.mem_cons_self a t)]

theorem gemini_analyze_ok {promptText : String}
    {genAnalysis : NetOracle → Nat → Int → String × Nat}
    {img : ImageData} {net : NetOracle} {text : String}
    (h : net.respond 0 promptText = .ok text) :
    gemini_analyze promptText genAnalysis img net =
      (.ok (mkAnalysisResult (extract_probability text)
        (genAnalysis net 1 (extract_probability text)).1),
       1 + (genAnalysis net 1 (extract_probability text)).2) := by
  unfold gemini_analyze
  rw [h]

theorem gemini_analyze_err {promptText : String}
    {genAnalysis : NetOracle → Nat → Int → String × Nat}
    {img : ImageData} {net : NetOracle}
    (h : net.respond 0 promptText = .error ()) :
    gemini_analyze promptText genAnalysis img net =
      (.error (.analysisFailed "Falha ao analisar imagem com Gemini AI"), 1) := by
  unfold gemini_analyze
  rw [h]

/-! ### Claim theorems -/

/-- Claim C1, counterexample: on input `"-5"` the extraction does not
return 5 — Python's `int("-5")` succeeds (the whole-text parse accepts a
sign), so the value −5 is clamped to 0 and the digit-run scan is never
reached. -/
theorem extract_probability_minus5_ne_five :
    extract_probability "-5" ≠ 5 := by decide

/-- Claim C1 (amended): the extraction scenarios evaluate to
`"  73\n"` → 73, `"I am 85% sure"` → 85 (first digit run),
`"not sure"` → 50, `"-5"` → 0 (the whole-text parse succeeds with −5,
then the clamp raises it to 0), `"150"` → 100 (whole-text parse succeeds,
then clamped). -/
theorem extract_probability_scenarios :
    extract_probability "  73\n" = 73 ∧
    extract_probability "I am 85% sure" = 85 ∧
    extract_probability "not sure" = 50 ∧
    extract_probability "-5" = 0 ∧
    extract_probability "150" = 100 := by
  refine ⟨?_, ?_, ?_, ?_, ?_⟩ <;> decide

/-- Claim C2: the probability extraction is total and deterministic (it is
a Lean function): for every string it returns an integer in `[0, 100]`,
every parsed branch being clamped, and it returns 50 whenever the string
contains no decimal digit (in particular for the empty string). -/
theorem extract_probability_total (s : String) :
    0 ≤ extract_probability s ∧ extract_probability s ≤ 100 ∧
    ((∀ c ∈ s.data, c.isDigit = false) → extract_probability s = 50) := by
  refine ⟨?_, ?_, ?_⟩
  · unfold extract_probability
    split
    · exact (clamp_bounds _).1
    · split
      · exact (clamp_bounds _).1
      · norm_num
  · unfold extract_probability
    split
    · exact (clamp_bounds _).2
    · split
      · exact (clamp_bounds _).2
      · norm_num
  · intro h
    have h1 : pyIntOfChars (pyStripChars s.data) = none :=
      pyIntOfChars_eq_none (fun c hc => h c (mem_of_mem_pyStripChars _ hc))
    have h2 : firstDigitRun s.data = none := firstDigitRun_eq_none h
    unfold extract_probability
    rw [h1, h2]

/-- Claim C2, witness: the empty string has no digits and extracts to 50. -/
theorem extract_probability_total_witness : extract_probability "" = 50 :=
  (extract_probability_total "").2.2 (by decide)

/-- Claim C3: the classification assigned at `AnalysisResult` construction
is the band table of the clamped probability: ≥ 80 → "Muito provável IA"
(spec: "very likely AI"), 60–79 → "Provavelmente IA" ("likely AI"),
40–59 → "Incerto" ("uncertain"), 20–39 → "Provavelmente real"
("likely real"), < 20 → "Muito provável real" ("very likely real"); in
particular the inputs 80, 79, 59, 39, 19 land as the spec's boundary
scenario says. -/
theorem classification_banding (p : Int) (t : String) :
    (80 ≤ (mkAnalysisResult p t).probability →
      (mkAnalysisResult p t).classification = "Muito provável IA") ∧
    (60 ≤ (mkAnalysisResult p t).probability ∧ (mkAnalysisResult p t).probability < 80 →
      (mkAnalysisResult p t).classification = "Provavelmente IA") ∧
    (40 ≤ (mkAnalysisResult p t).probability ∧ (mkAnalysisResult p t).probability < 60 →
      (mkAnalysisResult p t).classification = "Incerto") ∧
    (20 ≤ (mkAnalysisResult p t).probability ∧ (mkAnalysisResult p t).probability < 40 →
      (mkAnalysisResult p t).classification = "Provavelmente real") ∧
    ((mkAnalysisResult p t).probability < 20 →
      (mkAnalysisResult p t).classification = "Muito provável real") ∧
    (mkAnalysisResult 80 t).classification = "Muito provável IA" ∧
    (mkAnalysisResult 79 t).classification = "Provavelmente IA" ∧
    (mkAnalysisResult 59 t).classification = "Incerto" ∧
    (mkAnalysisResult 39 t).classification = "Provavelmente real" ∧
    (mkAnalysisResult 19 t).classification = "Muito provável real" := by
  have hprob : (mkAnalysisResult p t).probability = validate_probability p := rfl
  have hcls : (mkAnalysisResult p t).classification
      = determine_classification (validate_probability p) := rfl
  rw [hprob, hcls]
  refine ⟨?_, ?_, ?_, ?_, ?_, rfl, rfl, rfl, rfl, rfl⟩
  · intro h
    unfold determine_classification
    rw [if_pos h]
  · intro h
    unfold determine_classification
    rw [if_neg (by omega), if_pos h.1]
  · intro h
    unfold determine_classification
    rw [if_neg (by omega), if_neg (by omega), if_pos h.1]
  · intro h
    unfold determine_classification
    rw [if_neg (by omega), if_neg (by omega), if_neg (by omega), if_pos h.1]
  · intro h
    unfold determine_classification
    rw [if_neg (by omega), if_neg (by omega), if_neg (by omega), if_neg (by omega)]

/-- Claim C3, witness: at probability 80 the constructed result is
classified in the top band. -/
theorem classification_banding_witness :
    (mkAnalysisResult 80 "").classification = "Muito provável IA" :=
  (classification_banding 80 "").1 (by decide)

/-- Claim C4: on every constructed result, `is_likely_ai` is true exactly
when the clamped probability is ≥ 60, and `confidence_level` is "Alta"
("high") iff p ≥ 80 or p ≤ 20, "Média" ("medium") iff neither and
p ≥ 60 or p ≤ 40, and "Baixa" ("low") iff p is strictly between 40 and
60 — the source's literal overlapping-range definition. -/
theorem derived_flags (p : Int) (t : String) :
    (is_likely_ai (mkAnalysisResult p t) = true ↔
      60 ≤ (mkAnalysisResult p t).probability) ∧
    (confidence_level (mkAnalysisResult p t) = "Alta" ↔
      (80 ≤ (mkAnalysisResult p t).probability ∨
        (mkAnalysisResult p t).probability ≤ 20)) ∧
    (confidence_level (mkAnalysisResult p t) = "Média" ↔
      (¬(80 ≤ (mkAnalysisResult p t).probability ∨
          (mkAnalysisResult p t).probability ≤ 20) ∧
        (60 ≤ (mkAnalysisResult p t).probability ∨
          (mkAnalysisResult p t).probability ≤ 40))) ∧
    (confidence_level (mkAnalysisResult p t) = "Baixa" ↔
      (40 < (mkAnalysisResult p t).probability ∧
        (mkAnalysisResult p t).probability < 60)) := by
  unfold is_likely_ai confidence_level
  refine ⟨⟨fun h => of_decide_eq_true h, fun h => decide_eq_true h⟩, ?_⟩
  by_cases hA : 80 ≤ (mkAnalysisResult p t).probability ∨
      (mkAnalysisResult p t).probability ≤ 20
  · rw [if_pos hA]
    refine ⟨?_, ?_, ?_⟩
    · simp [hA]
    · constructor
      · intro h
        exact absurd h (by decide)
      · rintro ⟨hna, _⟩
        exact absurd hA hna
    · constructor
      · intro h
        exact absurd h (by decide)
      · intro h
        omega
  · rw [if_neg hA]
    by_cases hM : 60 ≤ (mkAnalysisResult p t).probability ∨
        (mkAnalysisResult p t).probability ≤ 40
    · rw [if_pos hM]
      refine ⟨?_, ?_, ?_⟩
      · constructor
        · intro h
          exact absurd h (by decide)
        · intro h
          exact absurd h hA
      · simp [hA, hM]
      · constructor
        · intro h
          exact absurd h (by decide)
        · intro h
          omega
    · rw [if_neg hM]
      refine ⟨?_, ?_, ?_⟩
      · constructor
        · intro h
          exact absurd h (by decide)
        · intro h
          exact absurd h hA
      · constructor
        · intro h
          exact absurd h (by decide)
        · rintro ⟨_, hm⟩
          exact absurd hm hM
      · constructor
        · intro _
          omega
        · intro _
          rfl

/-- Claim C4, witness: at probability 60 the constructed result is flagged
likely-AI. -/
theorem derived_flags_witness :
    is_likely_ai (mkAnalysisResult 60 "") = true :=
  (derived_flags 60 "").1.mpr (by decide)

/-- Claim C5: when the image is narrower or shorter than 100 pixels the
detailed analyzer fails with `AnalysisFailedException` having made zero
outbound calls; for an image at least 100×100 it proceeds identically to
the shared `GeminiAIDetector.analyze` flow (with the detailed prompt). -/
theorem detailed_min_size (img : ImageData) (net : NetOracle) :
    (img.width < 100 ∨ img.height < 100 →
      detailed_analyze img net =
        (.error (.analysisFailed
          "Imagem muito pequena para análise detalhada. Mínimo 100x100 pixels."), 0)) ∧
    (100 ≤ img.width → 100 ≤ img.height →
      detailed_analyze img net =
        gemini_analyze detailed_prompt gemini_generate_analysis img net) := by
  constructor
  · intro h
    unfold detailed_analyze
    rw [if_pos h]
  · intro h1 h2
    unfold detailed_analyze
    rw [if_neg (by omega)]

/-- Claim C5, witness: a 50×50 image fails the size precondition with no
call made, and a 100×100 image runs the shared flow. -/
theorem detailed_min_size_witness :
    detailed_analyze ⟨50, 50, none, "img"⟩ ⟨fun _ _ => .ok "50"⟩ =
      (.error (.analysisFailed
        "Imagem muito pequena para análise detalhada. Mínimo 100x100 pixels."), 0) ∧
    detailed_analyze ⟨100, 100, none, "img"⟩ ⟨fun _ _ => .ok "50"⟩ =
      gemini_analyze detailed_prompt gemini_generate_analysis
        ⟨100, 100, none, "img"⟩ ⟨fun _ _ => .ok "50"⟩ :=
  ⟨(detailed_min_size ⟨50, 50, none, "img"⟩ ⟨fun _ _ => .ok "50"⟩).1 (by decide),
   (detailed_min_size ⟨100, 100, none, "img"⟩ ⟨fun _ _ => .ok "50"⟩).2
     (by decide) (by decide)⟩

/-- Claim C6: if the probability call succeeds with reply `r` (extracted
probability p) and the explanation call fails, `analyze` still returns
successfully after exactly two outbound call attempts, with
`analysis_text` the deterministic fallback template, which embeds the
decimal rendering of p as a substring. -/
theorem explanation_fallback (img : ImageData) (net : NetOracle) (r : String)
    (h0 : net.respond 0 standard_prompt = .ok r)
    (h1 : ∀ pr, net.respond 1 pr = .error ()) :
    standard_analyze img net =
      (.ok (mkAnalysisResult (extract_probability r)
        (fallback_analysis (extract_probability r))), 2) ∧
    (toString (extract_probability r)).data <:+:
      (fallback_analysis (extract_probability r)).data := by
  constructor
  · unfold standard_analyze
    rw [gemini_analyze_ok h0]
    unfold gemini_generate_analysis
    rw [h1]
    rfl
  · unfold fallback_analysis
    simp only [String.data_append]
    exact List.infix_append _ _ _

/-- Claim C6, witness: a concrete oracle whose first call replies `"42"`
and whose second call fails yields a successful result carrying the
fallback text for 42. -/
theorem explanation_fallback_witness :
    standard_analyze ⟨64, 64, none, "img"⟩
        ⟨fun k _ => if k = 0 then .ok "42" else .error ()⟩ =
      (.ok (mkAnalysisResult (extract_probability "42")
        (fallback_analysis (extract_probability "42"))), 2) ∧
    (toString (extract_probability "42")).data <:+:
      (fallback_analysis (extract_probability "42")).data :=
  explanation_fallback ⟨64, 64, none, "img"⟩
    ⟨fun k _ => if k = 0 then .ok "42" else .error ()⟩ "42" rfl (fun _ => rfl)

/-- Claim C7: any `analysis_type` other than `"fast"` and `"detailed"`
selects the standard analyzer, and `analyze_image` behaves identically to
an explicit `"standard"` request; no error is raised for the unrecognized
type. -/
theorem unrecognized_type_standard (t : String)
    (h1 : t ≠ "fast") (h2 : t ≠ "detailed") :
    select_analyzer t = AnalyzerKind.standard ∧
    ∀ decode image_file net,
      analyze_image decode image_file t net =
        analyze_image decode image_file "standard" net := by
  have hsel : select_analyzer t = AnalyzerKind.standard := by
    unfold select_analyzer
    rw [if_neg h1, if_neg h2]
  refine ⟨hsel, ?_⟩
  intro decode image_file net
  cases image_file with
  | none => rfl
  | some up =>
    simp only [analyze_image, hsel]
    rfl

/-- Claim C7, witness: `"bogus"` selects the standard analyzer and a
concrete `"bogus"` request coincides with the `"standard"` one. -/
theorem unrecognized_type_standard_witness :
    select_analyzer "bogus" = AnalyzerKind.standard ∧
    analyze_image (fun _ => some ⟨64, 64, none⟩)
        (some ⟨"a.png", [1, 2, 3]⟩) "bogus" ⟨fun _ _ => .ok "50"⟩ =
      analyze_image (fun _ => some ⟨64, 64, none⟩)
        (some ⟨"a.png", [1, 2, 3]⟩) "standard" ⟨fun _ _ => .ok "50"⟩ :=
  ⟨(unrecognized_type_standard "bogus" (by decide) (by decide)).1,
   (unrecognized_type_standard "bogus" (by decide) (by decide)).2
     (fun _ => some ⟨64, 64, none⟩) (some ⟨"a.png", [1, 2, 3]⟩)
     ⟨fun _ _ => .ok "50"⟩⟩

/-- Claim C8: `AIModelConfig` construction with an empty credential fails
with `APIKeyMissingException` (spec: `CredentialMissing`) regardless of
temperature; with a credential and temperature 1.5 it fails with
`ValueError` (spec: `InvalidConfig`); with temperature 0 or 1 it succeeds
— the `[0, 1]` boundary is inclusive. -/
theorem model_config_validation (model_name api_key : String)
    (max_tokens : Option Nat) (hk : api_key ≠ "") :
    (∀ (m : String) (temp : ℚ) (mt : Option Nat),
      mkAIModelConfig m "" temp mt =
        .error (.apiKeyMissing "Chave da API do Gemini não configurada")) ∧
    mkAIModelConfig model_name api_key 1.5 max_tokens =
      .error (.valueError "Temperature deve estar entre 0 e 1") ∧
    mkAIModelConfig model_name api_key 0 max_tokens =
      .ok ⟨model_name, api_key, 0, max_tokens⟩ ∧
    mkAIModelConfig model_name api_key 1 max_tokens =
      .ok ⟨model_name, api_key, 1, max_tokens⟩ := by
  refine ⟨?_, ?_, ?_, ?_⟩
  · intro m temp mt
    unfold mkAIModelConfig
    rw [if_pos rfl]
  · unfold mkAIModelConfig
    rw [if_neg hk, if_pos (Or.inr (by norm_num))]
  · unfold mkAIModelConfig
    rw [if_neg hk, if_neg (by norm_num)]
  · unfold mkAIModelConfig
    rw [if_neg hk, if_neg (by norm_num)]

/-- Claim C8, witness: concrete constructions — empty credential fails,
temperature 1.5 fails, temperatures 0 and 1 succeed. -/
theorem model_config_validation_witness :
    mkAIModelConfig "gemini-2.5-flash" "" 1.5 none =
      .error (.apiKeyMissing "Chave da API do Gemini não configurada") ∧
    mkAIModelConfig "gemini-2.5-flash" "key" 1.5 none =
      .error (.valueError "Temperature deve estar entre 0 e 1") ∧
    mkAIModelConfig "gemini-2.5-flash" "key" 0 none =
      .ok ⟨"gemini-2.5-flash", "key", 0, none⟩ ∧
    mkAIModelConfig "gemini-2.5-flash" "key" 1 none =
      .ok ⟨"gemini-2.5-flash", "key", 1, none⟩ :=
  ⟨(model_config_validation "gemini-2.5-flash" "key" none (by decide)).1
      "gemini-2.5-flash" 1.5 none,
   (model_config_validation "gemini-2.5-flash" "key" none (by decide)).2.1,
   (model_config_validation "gemini-2.5-flash" "key" none (by decide)).2.2.1,
   (model_config_validation "gemini-2.5-flash" "key" none (by decide)).2.2.2⟩

/-- Claim C9: `analyze_image` fails with `NoImageProvidedException` on an
absent upload or an empty filename, and with `InvalidImageException` on
empty bytes or undecodable bytes; in every such case zero outbound calls
are made and no `AnalysisResult` is produced. -/
theorem analyze_image_validation (decode : List Nat → Option PILImage)
    (t : String) (net : NetOracle) :
    analyze_image decode none t net =
      (.error (.noImageProvided "Nenhuma imagem foi enviada"), 0) ∧
    (∀ up : UploadFile, up.filename = "" →
      analyze_image decode (some up) t net =
        (.error (.noImageProvided "Nenhuma imagem selecionada"), 0)) ∧
    (∀ up : UploadFile, up.filename ≠ "" → up.content = [] →
      analyze_image decode (some up) t net =
        (.error (.invalidImage "Arquivo de imagem vazio"), 0)) ∧
    (∀ up : UploadFile, up.filename ≠ "" → up.content ≠ [] →
      decode up.content = none →
      analyze_image decode (some up) t net =
        (.error (.invalidImage "Não foi possível abrir a imagem"), 0)) := by
  refine ⟨rfl, ?_, ?_, ?_⟩
  · intro up h
    simp only [analyze_image]
    rw [if_pos h]
  · intro up h1 h2
    simp only [analyze_image, create_image_data]
    rw [if_neg h1, if_pos h2]
  · intro up h1 h2 h3
    simp only [analyze_image, create_image_data]
    rw [if_neg h1, if_neg h2, h3]

/-- Claim C9, witness: each failure mode at a concrete input — absent
upload, empty filename, empty bytes, undecodable bytes — with zero calls
made. -/
theorem analyze_image_validation_witness :
    analyze_image (fun _ => none) none "standard" ⟨fun _ _ => .ok "50"⟩ =
      (.error (.noImageProvided "Nenhuma imagem foi enviada"), 0) ∧
    analyze_image (fun _ => none) (some ⟨"", [1]⟩) "standard"
        ⟨fun _ _ => .ok "50"⟩ =
      (.error (.noImageProvided "Nenhuma imagem selecionada"), 0) ∧
    analyze_image (fun _ => none) (some ⟨"a.png", []⟩) "standard"
        ⟨fun _ _ => .ok "50"⟩ =
      (.error (.invalidImage "Arquivo de imagem vazio"), 0) ∧
    analyze_image (fun _ => none) (some ⟨"a.png", [1]⟩) "standard"
        ⟨fun _ _ => .ok "50"⟩ =
      (.error (.invalidImage "Não foi possível abrir a imagem"), 0) :=
  ⟨(analyze_image_validation (fun _ => none) "standard"
      ⟨fun _ _ => .ok "50"⟩).1,
   (analyze_image_validation (fun _ => none) "standard"
      ⟨fun _ _ => .ok "50"⟩).2.1 ⟨"", [1]⟩ rfl,
   (analyze_image_validation (fun _ => none) "standard"
      ⟨fun _ _ => .ok "50"⟩).2.2.1 ⟨"a.png", []⟩ (by decide) rfl,
   (analyze_image_validation (fun _ => none) "standard"
      ⟨fun _ _ => .ok "50"⟩).2.2.2 ⟨"a.png", [1]⟩ (by decide) (by decide) rfl⟩

/-- Claim C10: the fast variant's explanation step makes no outbound call
and is the pure three-way template on the probability (thresholds ≥ 70,
≥ 30, < 30), each template embedding the decimal rendering of the
probability; consequently a fast analysis makes at most one outbound
call. -/
theorem fast_explanation_pure (net : NetOracle) (k : Nat) (p : Int) :
    (fast_generate_analysis net k p).2 = 0 ∧
    (70 ≤ p → (fast_generate_analysis net k p).1 =
      "Análise rápida detectou " ++ toString p ++
        "% de probabilidade de ser IA. Características típicas de geração artificial identificadas.") ∧
    (30 ≤ p → p < 70 → (fast_generate_analysis net k p).1 =
      "Análise inconclusiva com " ++ toString p ++
        "% de probabilidade. Características mistas detectadas.") ∧
    (p < 30 → (fast_generate_analysis net k p).1 =
      "Análise rápida indica " ++ toString p ++
        "% de probabilidade de IA. Características predominantemente naturais.") ∧
    (toString p).data <:+: (fast_generate_analysis net k p).1.data ∧
    ∀ (img : ImageData) (net2 : NetOracle), (fast_analyze img net2).2 ≤ 1 := by
  refine ⟨rfl, ?_, ?_, ?_, ?_, ?_⟩
  · intro h
    unfold fast_generate_analysis
    rw [if_pos h]
  · intro h1 h2
    unfold fast_generate_analysis
    rw [if_neg (by omega), if_pos h1]
  · intro h
    unfold fast_generate_analysis
    rw [if_neg (by omega), if_neg (by omega)]
  · unfold fast_generate_analysis
    by_cases h7 : 70 ≤ p
    · rw [if_pos h7]
      simp only [String.data_append]
      exact List.infix_append _ _ _
    · rw [if_neg h7]
      by_cases h3 : 30 ≤ p
      · rw [if_pos h3]
        simp only [String.data_append]
        exact List.infix_append _ _ _
      · rw [if_neg h3]
        simp only [String.data_append]
        exact List.infix_append _ _ _
  · intro img net2
    unfold fast_analyze
    cases h : net2.respond 0 fast_prompt with
    | ok text =>
      rw [gemini_analyze_ok h]
      exact Nat.le.refl
    | error e =>
      cases e
      rw [gemini_analyze_err h]

/-- Claim C10, witness: at probability 80 the fast explanation is the
high-band template with zero calls, and a concrete fast analysis makes at
most one call. -/
theorem fast_explanation_pure_witness :
    (fast_generate_analysis ⟨fun _ _ => .ok "50"⟩ 1 80).2 = 0 ∧
    (fast_generate_analysis ⟨fun _ _ => .ok "50"⟩ 1 80).1 =
      "Análise rápida detectou " ++ toString (80 : Int) ++
        "% de probabilidade de ser IA. Características típicas de geração artificial identificadas." ∧
    (fast_analyze ⟨64, 64, none, "img"⟩ ⟨fun _ _ => .ok "50"⟩).2 ≤ 1 :=
  ⟨(fast_explanation_pure ⟨fun _ _ => .ok "50"⟩ 1 80).1,
   (fast_explanation_pure ⟨fun _ _ => .ok "50"⟩ 1 80).2.1 (by decide),
   (fast_explanation_pure ⟨fun _ _ => .ok "50"⟩ 1 80).2.2.2.2.2
     ⟨64, 64, none, "img"⟩ ⟨fun _ _ => .ok "50"⟩⟩

end AiOuNao
